import Mathlib

/-!
Verification of the `taskqueue` reference service (Go package `taskqueue`).

This file gives a shallow embedding of the parts of the package that the
checked properties concern:

* `task_status.go` — the `TaskStatus` string type, the valid-status set and
  the `CanTransition` method;
* `task.go` — the `Task` entity and its bitwise flag operations;
* `constants.go` — the status and flag constants;
* `stats.go` — the `WorkerStats` atomic counters (`uint64`/`uint32` registers
  are modelled as `Nat` with explicit reduction modulo `2^64` / `2^32`);
* `worker.go` — `SubmitTask`, `Shutdown`, `executeTask`, `processTask`,
  `handleTaskError` and `sendResult`, together with a small labelled
  transition system describing interleavings of submissions and worker-loop
  steps.

Go `select` statements with several ready communications choose among them
pseudo-randomly; where a modelled function contains such a `select`
(`SubmitTask`, `sendResult`), the choice between two simultaneously ready
cases is resolved by an explicit Boolean oracle parameter.
-/

namespace Taskqueue

/-- Go: `type TaskStatus string` (task_status.go). Statuses are open strings. -/
abbrev TaskStatus := String

/-- Go constant `TaskStatusPending = "pending"`. -/
def TaskStatusPending : TaskStatus := "pending"

/-- Go constant `TaskStatusProcessing = "processing"`. -/
def TaskStatusProcessing : TaskStatus := "processing"

/-- Go constant `TaskStatusCompleted = "completed"`. -/
def TaskStatusCompleted : TaskStatus := "completed"

/-- Go constant `TaskStatusFailed = "failed"`. -/
def TaskStatusFailed : TaskStatus := "failed"

/-- Go: `IsValidStatus` checks membership in the `validStatuses` set
(task_status.go); the map lookup is modelled as the disjunction of the four
key comparisons. -/
def IsValidStatus (status : TaskStatus) : Bool :=
  status == TaskStatusPending || status == TaskStatusProcessing ||
    status == TaskStatusCompleted || status == TaskStatusFailed

/-- Bitwise flag constants from constants.go (`uint8` values). -/
def TaskFlagNone : Nat := 0

/-- Go constant `TaskFlagUrgent uint8 = 1 << 0`. -/
def TaskFlagUrgent : Nat := 1

/-- Go constant `TaskFlagRetryable uint8 = 1 << 1`. -/
def TaskFlagRetryable : Nat := 2

/-- Go constant `TaskFlagLogged uint8 = 1 << 2`. -/
def TaskFlagLogged : Nat := 4

/-- Go constant `TaskFlagMetrics uint8 = 1 << 3`. -/
def TaskFlagMetrics : Nat := 8

/-- The `Task` entity (task.go).  The Go `Data map[string]interface{}`
payload is never interpreted by the service; it is modelled as an
association list of string keys to string values.  `time.Time` fields are
modelled as nanosecond counts.  The Go field `Type` is named `typeTag`
here because `Type` is reserved in Lean. -/
structure Task where
  Data : List (String × String)
  CreatedAt : Nat
  UpdatedAt : Nat
  ID : String
  typeTag : String
  Status : TaskStatus
  Retries : Int
  MaxRetries : Int
  Flags : Nat
deriving DecidableEq

/-- Go: `func (t *Task) HasFlag(flag uint8) bool { return t.Flags&flag != 0 }`. -/
def Task.HasFlag (t : Task) (flag : Nat) : Bool :=
  t.Flags &&& flag != 0

/-- Go: `func (t *Task) SetFlag(flag uint8) { t.Flags |= flag }`. -/
def Task.SetFlag (t : Task) (flag : Nat) : Task :=
  { t with Flags := t.Flags ||| flag }

/-- Go: `func (t *Task) ClearFlag(flag uint8) { t.Flags &^= flag }`.
`x &^ f` on `uint8` is `x AND (NOT f)`, and the 8-bit complement of `f`
is `f XOR 255`. -/
def Task.ClearFlag (t : Task) (flag : Nat) : Task :=
  { t with Flags := t.Flags &&& (flag ^^^ 255) }

/-- Go: `func (t *Task) ToggleFlag(flag uint8) { t.Flags ^= flag }`. -/
def Task.ToggleFlag (t : Task) (flag : Nat) : Task :=
  { t with Flags := t.Flags ^^^ flag }

/-- Go: `CanTransition` (task_status.go lines 104-115); the `switch` over
`t.Status` is modelled by the same case order, with the `Completed`,
`Failed` and `default` cases all returning `false`. -/
def Task.CanTransition (t : Task) (newStatus : TaskStatus) : Bool :=
  if t.Status == TaskStatusPending then
    newStatus == TaskStatusProcessing
  else if t.Status == TaskStatusProcessing then
    newStatus == TaskStatusCompleted || newStatus == TaskStatusFailed
  else
    false

/-- Modulus of Go `uint64` registers. -/
def U64 : Nat := 2 ^ 64

/-- Modulus of Go `uint32` registers. -/
def U32 : Nat := 2 ^ 32

/-- The `WorkerStats` record (stats.go).  Each `atomic.Uint64` field is a
`Nat` register reduced modulo `2^64` on every update; `activeWorkers` is an
`atomic.Uint32` register reduced modulo `2^32`. -/
structure WorkerStats where
  tasksSubmitted : Nat
  tasksProcessed : Nat
  tasksFailed : Nat
  tasksRetried : Nat
  totalProcessTime : Nat
  activeWorkers : Nat
  running : Bool
deriving DecidableEq

/-- Go: `NewWorkerStats` zeroes every counter and stores `true` into the
`running` flag. -/
def NewWorkerStats : WorkerStats :=
  { tasksSubmitted := 0, tasksProcessed := 0, tasksFailed := 0
    tasksRetried := 0, totalProcessTime := 0, activeWorkers := 0
    running := true }

/-- Go: `RecordSubmission` — `s.tasksSubmitted.Add(1)`. -/
def WorkerStats.RecordSubmission (s : WorkerStats) : WorkerStats :=
  { s with tasksSubmitted := (s.tasksSubmitted + 1) % U64 }

/-- Go: `RecordProcessed(duration)` — `tasksProcessed.Add(1)` and
`totalProcessTime.Add(uint64(duration.Nanoseconds()))`.  Recorded durations
come from `time.Since` and are non-negative nanosecond counts. -/
def WorkerStats.RecordProcessed (s : WorkerStats) (durationNs : Nat) : WorkerStats :=
  { s with tasksProcessed := (s.tasksProcessed + 1) % U64
           totalProcessTime := (s.totalProcessTime + durationNs) % U64 }

/-- Go: `RecordFailed` — `s.tasksFailed.Add(1)`. -/
def WorkerStats.RecordFailed (s : WorkerStats) : WorkerStats :=
  { s with tasksFailed := (s.tasksFailed + 1) % U64 }

/-- Go: `RecordRetry` — `s.tasksRetried.Add(1)`. -/
def WorkerStats.RecordRetry (s : WorkerStats) : WorkerStats :=
  { s with tasksRetried := (s.tasksRetried + 1) % U64 }

/-- Go: `IncrementActive` — `s.activeWorkers.Add(1)` on `uint32`. -/
def WorkerStats.IncrementActive (s : WorkerStats) : WorkerStats :=
  { s with activeWorkers := (s.activeWorkers + 1) % U32 }

/-- Go: `DecrementActive` — `s.activeWorkers.Add(^uint32(0))`, i.e. adding
`2^32 - 1` modulo `2^32`. -/
def WorkerStats.DecrementActive (s : WorkerStats) : WorkerStats :=
  { s with activeWorkers := (s.activeWorkers + (U32 - 1)) % U32 }

/-- Go: `Stop` — `s.running.Store(false)`. -/
def WorkerStats.Stop (s : WorkerStats) : WorkerStats :=
  { s with running := false }

/-- Interpret a `uint64` register value as the Go `int64` obtained by
`time.Duration(x)`: values at or above `2^63` wrap to negatives. -/
def toInt64 (x : Nat) : Int :=
  if x < 2 ^ 63 then (x : Int) else (x : Int) - (U64 : Int)

/-- Go: `GetAverageProcessTime` (stats.go lines 120-129) — returns `0` when
`tasksProcessed` is zero, otherwise `time.Duration(totalProcessTime /
tasksProcessed)` (unsigned division, then reinterpretation as `int64`
nanoseconds). -/
def WorkerStats.GetAverageProcessTime (s : WorkerStats) : Int :=
  if s.tasksProcessed = 0 then 0
  else toInt64 (s.totalProcessTime / s.tasksProcessed)

/-- Fold of `RecordProcessed` over a list of recorded durations, as performed
by successive worker-loop completions. -/
def applyProcessed (s : WorkerStats) (ds : List Nat) : WorkerStats :=
  ds.foldl WorkerStats.RecordProcessed s

/-- The `TaskResult` entity (task_result.go); the `Output` payload map is
modelled like `Task.Data`, `Timestamp` as nanoseconds, `Duration` as a
nanosecond count. -/
structure TaskResult where
  Output : List (String × String)
  Timestamp : Nat
  TaskID : String
  Error : String
  Duration : Nat
  Success : Bool
deriving DecidableEq

/-- Outcome of a `SubmitTask` call (worker.go lines 314-333): `nil`,
`errors.New("worker not running")`, `ctx.Err()`, or
`errors.New("task queue full")`. -/
inductive SubmitOutcome where
  | ok
  | errNotRunning
  | errCtxDone
  | errQueueFull
deriving DecidableEq

/-- Outcome of a `Shutdown` call (worker.go lines 336-370): `nil`,
`errors.New("worker not running")`, or the wrapped shutdown-timeout error. -/
inductive ShutdownOutcome where
  | ok
  | errNotRunning
  | errTimeout
deriving DecidableEq

/-- The mutable state of a `Worker` pool instance (worker.go).  The two
buffered channels are modelled by their element counts (`taskQueue`,
`resultQueue`), their shared capacity `bufferSize` (`cfg.BufferSize`), and
closed flags. -/
structure Worker where
  running : Bool
  taskQueue : Nat
  bufferSize : Nat
  taskChanClosed : Bool
  resultQueue : Nat
  resultChanClosed : Bool
  inflight : Nat
  stats : WorkerStats
deriving DecidableEq

/-- A freshly constructed pool (`NewWorker`): not running, empty channels of
capacity `bufSize`, zeroed statistics. -/
def initWorker (bufSize : Nat) : Worker :=
  { running := false, taskQueue := 0, bufferSize := bufSize
    taskChanClosed := false, resultQueue := 0, resultChanClosed := false
    inflight := 0, stats := NewWorkerStats }

/-- Go: `SubmitTask` (worker.go lines 314-333).  Reads `running` under the
lock, returns "worker not running" if false; otherwise calls
`stats.RecordSubmission()` and runs the three-way `select` over `ctx.Done()`,
the buffered send, and `default`.  A receive on `ctx.Done()` is ready iff
`ctxDone`; the send is ready iff the buffer has free capacity; when both are
ready Go picks pseudo-randomly, resolved here by the oracle `pickCtx`
(`true` means the `ctx.Done()` case is chosen). -/
def Worker.SubmitTask (w : Worker) (ctxDone pickCtx : Bool) : SubmitOutcome × Worker :=
  if !w.running then (.errNotRunning, w)
  else
    let w1 := { w with stats := w.stats.RecordSubmission }
    if ctxDone && decide (w1.taskQueue < w1.bufferSize) then
      if pickCtx then (.errCtxDone, w1)
      else (.ok, { w1 with taskQueue := w1.taskQueue + 1 })
    else if ctxDone then (.errCtxDone, w1)
    else if w1.taskQueue < w1.bufferSize then
      (.ok, { w1 with taskQueue := w1.taskQueue + 1 })
    else (.errQueueFull, w1)

/-- Go: `Shutdown` (worker.go lines 336-370).  Rejects when not running;
otherwise clears `running`, closes the task channel, and waits (bounded by
the shutdown timeout) for the drain goroutine: `drainCompletes` says whether
`wg.Wait()` finished before the timeout.  On a completed drain the result
channel is closed and `stats.Stop()` runs; on timeout the detached goroutine
is left running (not modelled further). -/
def Worker.Shutdown (w : Worker) (drainCompletes : Bool) : ShutdownOutcome × Worker :=
  if !w.running then (.errNotRunning, w)
  else
    let w1 := { w with running := false, taskChanClosed := true }
    if drainCompletes then
      (.ok, { w1 with resultChanClosed := true, stats := w1.stats.Stop })
    else (.errTimeout, w1)

/-- Per-task behaviour of the injected collaborators while one task is
handled: the repository error (if any) of each `UpdateStatus` call, and the
executor outcome. -/
inductive ExecOutcome where
  | ok (r : TaskResult)
  | err (e : String)
deriving DecidableEq

/-- Collaborator responses for one task: `updProcessing`/`updCompleted`/
`updFailed` are the errors returned by `repo.UpdateStatus` for the
respective target status (`none` = success), `execOutcome` is what
`executor.Execute` returns. -/
structure CollabOutcome where
  updProcessing : Option String
  execOutcome : ExecOutcome
  updCompleted : Option String
  updFailed : Option String
deriving DecidableEq

/-- Go: `updateTaskStatus` (worker.go lines 255-260) wraps a repository
error as `"update status: %w"`. -/
def updateTaskStatus (repoResult : Option String) : Option String :=
  repoResult.map (fun e => "update status: " ++ e)

/-- Observable effects of `executeTask` (worker.go lines 211-229): whether
`executor.Execute` was invoked, which `UpdateStatus` targets were attempted
in order, and the returned result or wrapped error. -/
structure ExecEffects where
  executorCalled : Bool
  statusUpdates : List TaskStatus
  outcome : ExecOutcome
deriving DecidableEq

/-- Go: `executeTask` (worker.go lines 211-229).  Transitions the task to
Processing first and aborts (executor never called) if that update fails;
on executor failure it attempts the Failed update (error only logged) and
wraps the executor error; on executor success it attempts the Completed
update and fails the task if that update fails. -/
def executeTask (c : CollabOutcome) : ExecEffects :=
  match updateTaskStatus c.updProcessing with
  | some e =>
      { executorCalled := false
        statusUpdates := [TaskStatusProcessing]
        outcome := .err ("update status: " ++ e) }
  | none =>
      match c.execOutcome with
      | .err e =>
          { executorCalled := true
            statusUpdates := [TaskStatusProcessing, TaskStatusFailed]
            outcome := .err ("execute task: " ++ e) }
      | .ok r =>
          match updateTaskStatus c.updCompleted with
          | some e =>
              { executorCalled := true
                statusUpdates := [TaskStatusProcessing, TaskStatusCompleted]
                outcome := .err ("update completed status: " ++ e) }
          | none =>
              { executorCalled := true
                statusUpdates := [TaskStatusProcessing, TaskStatusCompleted]
                outcome := .ok r }

/-- Go: `sendResult` (worker.go lines 263-274): a `select` over `ctx.Done()`
(drop), the buffered send (deliver), and `default` (drop when the result
channel is full).  Returns whether the result was delivered; `pickCtx`
resolves the race when both the `ctx.Done()` receive and the send are
ready. -/
def sendResult (ctxDone resultFree pickCtx : Bool) : Bool :=
  if ctxDone && resultFree then !pickCtx
  else if ctxDone then false
  else resultFree

/-- Observable effects of `processTask` on one task: executor invocation,
which statistics were recorded, the `TaskResult` handed to `sendResult`,
and whether it was delivered into the result channel. -/
structure ProcEffects where
  executorCalled : Bool
  processedRecorded : Bool
  failedRecorded : Bool
  retryRecorded : Bool
  result : TaskResult
  delivered : Bool
deriving DecidableEq

/-- Go: `processTask` (worker.go lines 185-208) plus `handleTaskError`
(lines 232-252).  On an `executeTask` error: `RecordFailed`, `RecordRetry`
iff `task.Retries > 0`, and a failed `TaskResult` carrying the error text is
sent.  On success: the result's `Duration` is set, `RecordProcessed` runs,
and the result is sent.  `durationNs` is the measured wall time, `now` the
`time.Now()` stamp used by `handleTaskError`, and `ctxDone`/`resultFree`/
`pickCtx` parameterise `sendResult`. -/
def processTask (c : CollabOutcome) (t : Task) (durationNs now : Nat)
    (ctxDone resultFree pickCtx : Bool) : ProcEffects :=
  let eff := executeTask c
  match eff.outcome with
  | .err e =>
      { executorCalled := eff.executorCalled
        processedRecorded := false
        failedRecorded := true
        retryRecorded := decide (t.Retries > 0)
        result := { Output := [], Timestamp := now, TaskID := t.ID
                    Error := e, Duration := 0, Success := false }
        delivered := sendResult ctxDone resultFree pickCtx }
  | .ok r =>
      { executorCalled := eff.executorCalled
        processedRecorded := true
        failedRecorded := false
        retryRecorded := false
        result := { r with Duration := durationNs }
        delivered := sendResult ctxDone resultFree pickCtx }

/-- One observable event of the pool: a lifecycle call, a `SubmitTask` call,
a worker loop pulling a task off the intake channel, or a worker loop
finishing `processTask` for a pulled task.  Event payloads carry the
environmental choices (context state, collaborator outcomes, `select`
oracles). -/
inductive PoolEvent where
  | start
  | shutdown (drainCompletes : Bool)
  | submit (ctxDone pickCtx : Bool)
  | dequeue
  | finish (c : CollabOutcome) (t : Task) (durationNs now : Nat)
      (ctxDone resultFree pickCtx : Bool)

/-- Interleaving semantics of the pool.  `start` mirrors `Start` setting the
running flag (a second `Start` is rejected and changes nothing); `dequeue`
is a worker receiving a buffered task and entering `processTask`
(`IncrementActive` runs at `processTask` entry); `finish` applies the
statistics and result-channel effects of `processTask`, followed by the
deferred `DecrementActive`.  Guards make `dequeue`/`finish` no-ops when no
task is available, matching the blocking receive. -/
def stepPool (w : Worker) (e : PoolEvent) : Worker :=
  match e with
  | .start => if w.running then w else { w with running := true }
  | .shutdown d => (w.Shutdown d).2
  | .submit cd pk => (w.SubmitTask cd pk).2
  | .dequeue =>
      if w.taskQueue = 0 then w
      else { w with taskQueue := w.taskQueue - 1, inflight := w.inflight + 1
                    stats := w.stats.IncrementActive }
  | .finish c t dur now cd rf pk =>
      if w.inflight = 0 then w
      else
        let eff := processTask c t dur now cd rf pk
        let s1 :=
          if eff.processedRecorded then w.stats.RecordProcessed dur
          else if eff.retryRecorded then (w.stats.RecordFailed).RecordRetry
          else w.stats.RecordFailed
        { w with inflight := w.inflight - 1
                 resultQueue := if eff.delivered then w.resultQueue + 1 else w.resultQueue
                 stats := s1.DecrementActive }

/-- Run a sequence of pool events from a starting state. -/
def runPool (w : Worker) (es : List PoolEvent) : Worker :=
  es.foldl stepPool w

/-- The statistics invariant of §3 of the design: tasks counted as processed
or failed never exceed tasks counted as submitted. -/
def countersOk (w : Worker) : Prop :=
  w.stats.tasksProcessed + w.stats.tasksFailed ≤ w.stats.tasksSubmitted

/-- A concrete task used to instantiate universally quantified theorems. -/
def sampleTask (st : TaskStatus) : Task :=
  { Data := [], CreatedAt := 0, UpdatedAt := 0, ID := "task-1"
    typeTag := "email", Status := st, Retries := 0, MaxRetries := 3
    Flags := 0 }

/-- The three legal status transition edges. -/
def legalTransitions : List (TaskStatus × TaskStatus) :=
  [(TaskStatusPending, TaskStatusProcessing),
   (TaskStatusProcessing, TaskStatusCompleted),
   (TaskStatusProcessing, TaskStatusFailed)]

/-- `IsValidStatus` agrees with membership in the four defined statuses. -/
theorem isValidStatus_iff_mem (s : TaskStatus) :
    IsValidStatus s = true ↔
      s ∈ [TaskStatusPending, TaskStatusProcessing,
        TaskStatusCompleted, TaskStatusFailed] := by
  simp [IsValidStatus, or_assoc]

/-- C2: over the 16 pairs drawn from the four defined statuses,
`CanTransition` returns true exactly on the three legal edges
Pending→Processing, Processing→Completed and Processing→Failed, and false
on the other 13 pairs. -/
theorem canTransition_characterisation (t : Task) (next : TaskStatus)
    (h1 : IsValidStatus t.Status = true) (h2 : IsValidStatus next = true) :
    t.CanTransition next = decide ((t.Status, next) ∈ legalTransitions) := by
  have key : ∀ cur ∈ [TaskStatusPending, TaskStatusProcessing,
        TaskStatusCompleted, TaskStatusFailed],
      ∀ nx ∈ [TaskStatusPending, TaskStatusProcessing,
        TaskStatusCompleted, TaskStatusFailed],
      (sampleTask cur).CanTransition nx = decide ((cur, nx) ∈ legalTransitions) := by
    decide
  exact key t.Status ((isValidStatus_iff_mem _).mp h1) next
    ((isValidStatus_iff_mem _).mp h2)

/-- Witness for C2 at the concrete pair (Pending, Processing). -/
theorem canTransition_characterisation_witness :
    IsValidStatus (sampleTask TaskStatusPending).Status = true ∧
    IsValidStatus TaskStatusProcessing = true ∧
    (sampleTask TaskStatusPending).CanTransition TaskStatusProcessing =
      decide (((sampleTask TaskStatusPending).Status, TaskStatusProcessing) ∈
        legalTransitions) :=
  ⟨by decide, by decide,
    canTransition_characterisation (sampleTask TaskStatusPending)
      TaskStatusProcessing (by decide) (by decide)⟩

/-- C10: on a task whose `Status` string lies outside the four defined
constants, `CanTransition` returns false for every proposed status — the
`default` arm of the `switch` makes the check total over the open
string-typed status. -/
theorem canTransition_invalid_status (t : Task)
    (h : IsValidStatus t.Status = false) :
    ∀ next : TaskStatus, t.CanTransition next = false := by
  intro next
  simp only [IsValidStatus, Bool.or_eq_false_iff, beq_eq_false_iff_ne, ne_eq] at h
  obtain ⟨⟨⟨h1, h2⟩, _⟩, _⟩ := h
  simp [Task.CanTransition, h1, h2]

/-- Witness for C10 at the concrete status "archived" and proposal
"processing". -/
theorem canTransition_invalid_status_witness :
    IsValidStatus (sampleTask "archived").Status = false ∧
    (sampleTask "archived").CanTransition TaskStatusProcessing = false :=
  ⟨by decide,
    canTransition_invalid_status (sampleTask "archived") (by decide)
      TaskStatusProcessing⟩

/-- Equality of every `Task` field except `Flags`. -/
def sameExceptFlags (a b : Task) : Prop :=
  a.Data = b.Data ∧ a.CreatedAt = b.CreatedAt ∧ a.UpdatedAt = b.UpdatedAt ∧
  a.ID = b.ID ∧ a.typeTag = b.typeTag ∧ a.Status = b.Status ∧
  a.Retries = b.Retries ∧ a.MaxRetries = b.MaxRetries

set_option maxRecDepth 8192 in
/-- Bit-level facts behind the flag operations, checked over every `uint8`
byte value and each of the four defined flag constants. -/
theorem flagByte_ops : ∀ b < 256,
    ∀ f ∈ [TaskFlagUrgent, TaskFlagRetryable, TaskFlagLogged, TaskFlagMetrics],
    ((b ||| f) &&& f ≠ 0) ∧ ((b &&& (f ^^^ 255)) &&& f = 0) := by
  decide

/-- C8: for each of the four defined flag constants, `SetFlag`, `ClearFlag`
and `ToggleFlag` change only the `Flags` byte; `HasFlag` holds after
`SetFlag` and fails after `ClearFlag`; toggling twice restores the original
task.  All four operations are total functions. -/
theorem flag_ops_correct (t : Task) (f : Nat) (hb : t.Flags < 256)
    (hf : f ∈ [TaskFlagUrgent, TaskFlagRetryable, TaskFlagLogged, TaskFlagMetrics]) :
    sameExceptFlags t (t.SetFlag f) ∧ sameExceptFlags t (t.ClearFlag f) ∧
    sameExceptFlags t (t.ToggleFlag f) ∧
    (t.SetFlag f).HasFlag f = true ∧ (t.ClearFlag f).HasFlag f = false ∧
    (t.ToggleFlag f).ToggleFlag f = t := by
  obtain ⟨hset, hclear⟩ := flagByte_ops t.Flags hb f hf
  refine ⟨⟨rfl, rfl, rfl, rfl, rfl, rfl, rfl, rfl⟩,
    ⟨rfl, rfl, rfl, rfl, rfl, rfl, rfl, rfl⟩,
    ⟨rfl, rfl, rfl, rfl, rfl, rfl, rfl, rfl⟩, ?_, ?_, ?_⟩
  · simp [Task.HasFlag, Task.SetFlag, hset]
  · simp [Task.HasFlag, Task.ClearFlag, hclear]
  · cases t
    simp [Task.ToggleFlag, Nat.xor_cancel_right]

/-- Witness for C8 at a concrete task and the urgent flag. -/
theorem flag_ops_correct_witness :
    (sampleTask TaskStatusPending).Flags < 256 ∧
    TaskFlagUrgent ∈ [TaskFlagUrgent, TaskFlagRetryable, TaskFlagLogged, TaskFlagMetrics] ∧
    (sameExceptFlags (sampleTask TaskStatusPending)
        ((sampleTask TaskStatusPending).SetFlag TaskFlagUrgent) ∧
      sameExceptFlags (sampleTask TaskStatusPending)
        ((sampleTask TaskStatusPending).ClearFlag TaskFlagUrgent) ∧
      sameExceptFlags (sampleTask TaskStatusPending)
        ((sampleTask TaskStatusPending).ToggleFlag TaskFlagUrgent) ∧
      ((sampleTask TaskStatusPending).SetFlag TaskFlagUrgent).HasFlag TaskFlagUrgent = true ∧
      ((sampleTask TaskStatusPending).ClearFlag TaskFlagUrgent).HasFlag TaskFlagUrgent = false ∧
      ((sampleTask TaskStatusPending).ToggleFlag TaskFlagUrgent).ToggleFlag TaskFlagUrgent =
        sampleTask TaskStatusPending) :=
  ⟨by decide, by decide,
    flag_ops_correct (sampleTask TaskStatusPending) TaskFlagUrgent
      (by decide) (by decide)⟩

/-- Counter bookkeeping of a run of `RecordProcessed` calls: as long as
neither `uint64` register wraps, the processed count and the accumulated
duration total are exact. -/
theorem applyProcessed_counters : ∀ (ds : List Nat) (s : WorkerStats),
    s.tasksProcessed + ds.length < U64 →
    s.totalProcessTime + ds.sum < U64 →
    (applyProcessed s ds).tasksProcessed = s.tasksProcessed + ds.length ∧
    (applyProcessed s ds).totalProcessTime = s.totalProcessTime + ds.sum := by
  intro ds
  induction ds with
  | nil => intro s _ _; simp [applyProcessed]
  | cons d ds ih =>
      intro s hp ht
      have hp1 : s.tasksProcessed + 1 < U64 := by
        simp [List.length_cons] at hp; omega
      have ht1 : s.totalProcessTime + d < U64 := by
        simp [List.sum_cons] at ht; omega
      have step : applyProcessed s (d :: ds) =
          applyProcessed (s.RecordProcessed d) ds := rfl
      rw [step]
      have hfp : (s.RecordProcessed d).tasksProcessed = s.tasksProcessed + 1 := by
        simp [WorkerStats.RecordProcessed, Nat.mod_eq_of_lt hp1]
      have hft : (s.RecordProcessed d).totalProcessTime = s.totalProcessTime + d := by
        simp [WorkerStats.RecordProcessed, Nat.mod_eq_of_lt ht1]
      have := ih (s.RecordProcessed d)
        (by rw [hfp]; simp [List.length_cons] at hp ⊢; omega)
        (by rw [hft]; simp [List.sum_cons] at ht ⊢; omega)
      rw [hfp, hft] at this
      simp [List.length_cons, List.sum_cons]
      omega

/-- C7: `GetAverageProcessTime` returns 0 on a zero processed counter, and
after any sequence of `RecordProcessed` calls on fresh statistics (short of
register wrap-around) it returns the accumulated duration total divided by
the processed count with integer (truncating) division. -/
theorem averageProcessTime_spec :
    (∀ s : WorkerStats, s.tasksProcessed = 0 → s.GetAverageProcessTime = 0) ∧
    ∀ ds : List Nat, ds.length < U64 → ds.sum < 2 ^ 63 →
      (applyProcessed NewWorkerStats ds).GetAverageProcessTime =
        if ds.length = 0 then 0 else ((ds.sum / ds.length : Nat) : Int) := by
  constructor
  · intro s h
    simp [WorkerStats.GetAverageProcessTime, h]
  · intro ds hlen hsum
    have hsum64 : ds.sum < U64 := lt_trans hsum (by norm_num [U64])
    obtain ⟨hp, ht⟩ := applyProcessed_counters ds NewWorkerStats
      (by simpa [NewWorkerStats] using hlen)
      (by simpa [NewWorkerStats] using hsum64)
    have hz1 : NewWorkerStats.tasksProcessed = 0 := rfl
    have hz2 : NewWorkerStats.totalProcessTime = 0 := rfl
    rw [hz1, Nat.zero_add] at hp
    rw [hz2, Nat.zero_add] at ht
    by_cases h0 : ds.length = 0
    · simp [WorkerStats.GetAverageProcessTime, hp, ht, h0]
    · have hdiv : ds.sum / ds.length < 2 ^ 63 :=
        lt_of_le_of_lt (Nat.div_le_self _ _) hsum
      simp [WorkerStats.GetAverageProcessTime, hp, ht, h0, toInt64, hdiv]
      intro hge
      omega

/-- Witness for C7: two recorded durations of 5 ns and 7 ns average to 6 ns. -/
theorem averageProcessTime_spec_witness :
    ([5, 7] : List Nat).length < U64 ∧ ([5, 7] : List Nat).sum < 2 ^ 63 ∧
    (applyProcessed NewWorkerStats [5, 7]).GetAverageProcessTime =
      (if ([5, 7] : List Nat).length = 0 then 0
        else ((([5, 7] : List Nat).sum / ([5, 7] : List Nat).length : Nat) : Int)) :=
  ⟨by decide, by decide, averageProcessTime_spec.2 [5, 7] (by decide) (by decide)⟩

/-- A freshly started pool with intake capacity 1 and an empty queue. -/
def runningWorker : Worker :=
  { initWorker 1 with running := true }

/-- A running pool whose intake channel is at capacity. -/
def fullWorker : Worker :=
  { initWorker 1 with running := true, taskQueue := 1 }

/-- `SubmitTask` leaves the state untouched, or (after the running check
passes) records the submission and possibly enqueues the task. -/
theorem submitTask_effect (w : Worker) (cd pk : Bool) :
    (w.SubmitTask cd pk).2 = w ∨
    (w.SubmitTask cd pk).2 = { w with stats := w.stats.RecordSubmission } ∨
    (w.SubmitTask cd pk).2 =
      { w with stats := w.stats.RecordSubmission, taskQueue := w.taskQueue + 1 } := by
  cases hr : w.running
  · left
    simp [Worker.SubmitTask, hr]
  · cases cd <;> cases pk <;> by_cases hq : w.taskQueue < w.bufferSize <;>
      simp [Worker.SubmitTask, hr, hq]

/-- Counterexample to C1 as stated: on a running pool with a full intake
queue the call is rejected with "task queue full", yet the submitted
counter has been incremented. -/
theorem submit_counter_claim_counterexample :
    (fullWorker.SubmitTask false false).1 = SubmitOutcome.errQueueFull ∧
    ((fullWorker.SubmitTask false false).2).stats.tasksSubmitted =
      fullWorker.stats.tasksSubmitted + 1 := by
  constructor <;> rfl

/-- C1 (amended): `RecordSubmission` runs exactly once on every call that
passes the running check — on success and on context-cancelled or
queue-full rejections alike — and does not run when the call is rejected
with "worker not running". -/
theorem submit_counter_behaviour (w : Worker) (cd pk : Bool) :
    ((w.SubmitTask cd pk).1 = SubmitOutcome.errNotRunning →
      (w.SubmitTask cd pk).2 = w) ∧
    ((w.SubmitTask cd pk).1 ≠ SubmitOutcome.errNotRunning →
      ((w.SubmitTask cd pk).2).stats.tasksSubmitted =
        (w.stats.tasksSubmitted + 1) % U64) := by
  cases hr : w.running
  · simp [Worker.SubmitTask, hr]
  · cases cd <;> cases pk <;> by_cases hq : w.taskQueue < w.bufferSize <;>
      simp [Worker.SubmitTask, hr, hq, WorkerStats.RecordSubmission]

/-- Witness for C1 (amended) at a successful concrete submission. -/
theorem submit_counter_behaviour_witness :
    (runningWorker.SubmitTask false false).1 ≠ SubmitOutcome.errNotRunning ∧
    ((runningWorker.SubmitTask false false).2).stats.tasksSubmitted =
      (runningWorker.stats.tasksSubmitted + 1) % U64 :=
  ⟨by decide,
    (submit_counter_behaviour runningWorker false false).2 (by decide)⟩

/-- Counterexample to C4 as stated: with the context already done but free
queue capacity, the `select` may choose the buffered send, so the call can
enqueue the task and return success instead of the cancellation error. -/
theorem submit_ctxDone_claim_counterexample :
    (runningWorker.SubmitTask true false).1 = SubmitOutcome.ok ∧
    ((runningWorker.SubmitTask true false).2).taskQueue =
      runningWorker.taskQueue + 1 := by
  constructor <;> rfl

/-- C4 (amended): `SubmitTask` is non-blocking and decides admission as
follows — "not running" when the pool is not Running; with the context
already done it rejects with the cancellation error whenever the queue is
full, and races the cancellation rejection against a successful enqueue
when space is free; "queue full" when the context is live and the bounded
intake channel has no free capacity; otherwise it enqueues and succeeds. -/
theorem submit_admission_characterisation (w : Worker) (cd pk : Bool) :
    (w.running = false → w.SubmitTask cd pk = (SubmitOutcome.errNotRunning, w)) ∧
    (w.running = true → cd = true → (w.bufferSize ≤ w.taskQueue ∨ pk = true) →
      (w.SubmitTask cd pk).1 = SubmitOutcome.errCtxDone ∧
      ((w.SubmitTask cd pk).2).taskQueue = w.taskQueue) ∧
    (w.running = true → cd = false → w.bufferSize ≤ w.taskQueue →
      (w.SubmitTask cd pk).1 = SubmitOutcome.errQueueFull ∧
      ((w.SubmitTask cd pk).2).taskQueue = w.taskQueue) ∧
    (w.running = true → w.taskQueue < w.bufferSize → (cd = false ∨ pk = false) →
      (w.SubmitTask cd pk).1 = SubmitOutcome.ok ∧
      ((w.SubmitTask cd pk).2).taskQueue = w.taskQueue + 1) := by
  refine ⟨fun hr => ?_, fun hr hcd hfull => ?_, fun hr hcd hfull => ?_,
    fun hr hspace hpick => ?_⟩
  · simp [Worker.SubmitTask, hr]
  · subst hcd
    rcases hfull with hfull | hfull
    · have hq : ¬ w.taskQueue < w.bufferSize := Nat.not_lt.mpr hfull
      simp [Worker.SubmitTask, hr, hq]
    · subst hfull
      by_cases hq : w.taskQueue < w.bufferSize <;>
        simp [Worker.SubmitTask, hr, hq]
  · subst hcd
    have hq : ¬ w.taskQueue < w.bufferSize := Nat.not_lt.mpr hfull
    simp [Worker.SubmitTask, hr, hq]
  · rcases hpick with hp | hp
    · subst hp
      simp [Worker.SubmitTask, hr, hspace]
    · subst hp
      cases cd <;> simp [Worker.SubmitTask, hr, hspace]

/-- Witness for C4 (amended) at a concrete successful admission. -/
theorem submit_admission_characterisation_witness :
    runningWorker.running = true ∧
    runningWorker.taskQueue < runningWorker.bufferSize ∧
    ((runningWorker.SubmitTask false false).1 = SubmitOutcome.ok ∧
      ((runningWorker.SubmitTask false false).2).taskQueue =
        runningWorker.taskQueue + 1) :=
  ⟨rfl, by decide,
    (submit_admission_characterisation runningWorker false false).2.2.2
      rfl (by decide) (Or.inl rfl)⟩

/-- C6: `Shutdown` on a pool that is not Running returns the "worker not
running" error and leaves the state unchanged; after one successful
`Shutdown`, a second call (with either drain outcome) returns the "worker
not running" error rather than succeeding. -/
theorem shutdown_not_idempotent (w : Worker) (d d2 : Bool) :
    (w.running = false → w.Shutdown d = (ShutdownOutcome.errNotRunning, w)) ∧
    (w.running = true →
      ((w.Shutdown true).2).Shutdown d2 =
        (ShutdownOutcome.errNotRunning, (w.Shutdown true).2)) := by
  constructor
  · intro h
    simp [Worker.Shutdown, h]
  · intro h
    simp [Worker.Shutdown, h]

/-- Witness for C6: a concrete started pool, shut down twice. -/
theorem shutdown_not_idempotent_witness :
    runningWorker.running = true ∧
    ((runningWorker.Shutdown true).2).Shutdown true =
      (ShutdownOutcome.errNotRunning, (runningWorker.Shutdown true).2) :=
  ⟨rfl, (shutdown_not_idempotent runningWorker true true).2 rfl⟩

/-- A successful executor result used to instantiate theorems. -/
def sampleResult : TaskResult :=
  { Output := [("sent", "true")], Timestamp := 10, TaskID := "task-1"
    Error := "", Duration := 0, Success := true }

/-- Collaborator responses where the Processing status update fails. -/
def failUpdCollab : CollabOutcome :=
  { updProcessing := some "db down", execOutcome := .ok sampleResult
    updCompleted := none, updFailed := none }

/-- Collaborator responses where execution succeeds but the Completed
status update fails. -/
def failCompletedCollab : CollabOutcome :=
  { updProcessing := none, execOutcome := .ok sampleResult
    updCompleted := some "db down", updFailed := none }

/-- C3: when the `UpdateStatus` call moving the task to Processing fails,
the worker aborts the task — the executor is never invoked and the
processed counter is not incremented (the task is recorded as failed, not
as both). -/
theorem updateProcessing_failure_aborts (c : CollabOutcome) (t : Task)
    (dur now : Nat) (cd rf pk : Bool) (e : String)
    (h : c.updProcessing = some e) :
    (processTask c t dur now cd rf pk).executorCalled = false ∧
    (processTask c t dur now cd rf pk).processedRecorded = false ∧
    (processTask c t dur now cd rf pk).failedRecorded = true := by
  simp [processTask, executeTask, updateTaskStatus, h]

/-- Witness for C3 at a concrete failing Processing update. -/
theorem updateProcessing_failure_aborts_witness :
    failUpdCollab.updProcessing = some "db down" ∧
    ((processTask failUpdCollab (sampleTask TaskStatusPending) 3 9 false true false).executorCalled = false ∧
      (processTask failUpdCollab (sampleTask TaskStatusPending) 3 9 false true false).processedRecorded = false ∧
      (processTask failUpdCollab (sampleTask TaskStatusPending) 3 9 false true false).failedRecorded = true) :=
  ⟨rfl,
    updateProcessing_failure_aborts failUpdCollab (sampleTask TaskStatusPending)
      3 9 false true false "db down" rfl⟩

/-- C9: when the executor succeeds but the Completed status update fails,
the task is counted as failed (not processed) and the `TaskResult` handed
to the result channel has `Success = false` and carries the wrapped update
error text; with a live context and free result-channel capacity it is
delivered. -/
theorem completedUpdate_failure_counts_failed (c : CollabOutcome) (t : Task)
    (dur now : Nat) (cd rf pk : Bool) (r : TaskResult) (e : String)
    (hup : c.updProcessing = none) (hex : c.execOutcome = .ok r)
    (hcf : c.updCompleted = some e) :
    (processTask c t dur now cd rf pk).failedRecorded = true ∧
    (processTask c t dur now cd rf pk).processedRecorded = false ∧
    (processTask c t dur now cd rf pk).result.Success = false ∧
    (processTask c t dur now cd rf pk).result.Error =
      "update completed status: " ++ ("update status: " ++ e) ∧
    (cd = false → rf = true →
      (processTask c t dur now cd rf pk).delivered = true) := by
  refine ⟨?_, ?_, ?_, ?_, ?_⟩
  · simp [processTask, executeTask, updateTaskStatus, hup, hex, hcf]
  · simp [processTask, executeTask, updateTaskStatus, hup, hex, hcf]
  · simp [processTask, executeTask, updateTaskStatus, hup, hex, hcf]
  · simp [processTask, executeTask, updateTaskStatus, hup, hex, hcf]
  · intro hcd hrf
    subst hcd
    subst hrf
    simp [processTask, executeTask, updateTaskStatus, hup, hex, hcf, sendResult]

/-- Witness for C9 at a concrete failing Completed update. -/
theorem completedUpdate_failure_counts_failed_witness :
    failCompletedCollab.updProcessing = none ∧
    failCompletedCollab.execOutcome = ExecOutcome.ok sampleResult ∧
    failCompletedCollab.updCompleted = some "db down" ∧
    ((processTask failCompletedCollab (sampleTask TaskStatusPending) 3 9 false true false).failedRecorded = true ∧
      (processTask failCompletedCollab (sampleTask TaskStatusPending) 3 9 false true false).processedRecorded = false ∧
      (processTask failCompletedCollab (sampleTask TaskStatusPending) 3 9 false true false).result.Success = false ∧
      (processTask failCompletedCollab (sampleTask TaskStatusPending) 3 9 false true false).result.Error =
        "update completed status: " ++ ("update status: " ++ "db down") ∧
      (false = false → true = true →
        (processTask failCompletedCollab (sampleTask TaskStatusPending) 3 9 false true false).delivered = true)) :=
  ⟨rfl, rfl, rfl,
    completedUpdate_failure_counts_failed failCompletedCollab
      (sampleTask TaskStatusPending) 3 9 false true false sampleResult
      "db down" rfl rfl rfl⟩

/-- Strengthened statistics invariant for the pool transition system: the
submitted register dominates the processed and failed registers plus all
tasks still buffered or in flight, and is itself bounded by the number of
events so far (so no `uint64` register has wrapped). -/
def InvPool (w : Worker) (n : Nat) : Prop :=
  w.stats.tasksProcessed + w.stats.tasksFailed + w.taskQueue + w.inflight ≤
    w.stats.tasksSubmitted ∧
  w.stats.tasksSubmitted ≤ n

/-- `Shutdown` only touches the lifecycle flags; no counter changes. -/
theorem shutdown_effect (w : Worker) (d : Bool) :
    (w.Shutdown d).2 = w ∨
    (w.Shutdown d).2 = { w with running := false, taskChanClosed := true } ∨
    (w.Shutdown d).2 =
      { w with running := false, taskChanClosed := true
               resultChanClosed := true, stats := w.stats.Stop } := by
  cases hr : w.running
  · left
    simp [Worker.Shutdown, hr]
  · cases d
    · right; left
      simp [Worker.Shutdown, hr]
    · right; right
      simp [Worker.Shutdown, hr]

/-- Each pool event preserves the strengthened invariant while fewer than
`2^64` events have happened. -/
theorem stepPool_inv (w : Worker) (e : PoolEvent) (n : Nat)
    (h : InvPool w n) (hn : n + 1 < U64) : InvPool (stepPool w e) (n + 1) := by
  obtain ⟨hsum, hub⟩ := h
  have hmod : ∀ x : Nat, x ≤ n → (x + 1) % U64 = x + 1 := fun x hx =>
    Nat.mod_eq_of_lt (lt_of_le_of_lt (Nat.succ_le_succ hx) hn)
  cases e with
  | start =>
      by_cases hr : w.running <;>
        simp [stepPool, hr, InvPool] <;> omega
  | shutdown d =>
      rcases shutdown_effect w d with heq | heq | heq <;>
        simp [stepPool, heq, InvPool, WorkerStats.Stop] <;> omega
  | submit cd pk =>
      rcases submitTask_effect w cd pk with heq | heq | heq <;>
        simp [stepPool, heq, InvPool, WorkerStats.RecordSubmission,
          hmod _ hub] <;> omega
  | dequeue =>
      by_cases hq : w.taskQueue = 0 <;>
        simp [stepPool, hq, InvPool, WorkerStats.IncrementActive] <;> omega
  | finish c t dur now cd rf pk =>
      by_cases hin : w.inflight = 0
      · simp [stepPool, hin, InvPool]
        omega
      · have hproc : w.stats.tasksProcessed + 1 < U64 := by omega
        have hfail : w.stats.tasksFailed + 1 < U64 := by omega
        by_cases hp : (processTask c t dur now cd rf pk).processedRecorded <;>
          by_cases hrt : (processTask c t dur now cd rf pk).retryRecorded <;>
          simp [stepPool, hin, hp, hrt, InvPool, WorkerStats.RecordProcessed,
            WorkerStats.RecordFailed, WorkerStats.RecordRetry,
            WorkerStats.DecrementActive, Nat.mod_eq_of_lt hproc,
            Nat.mod_eq_of_lt hfail] <;> omega

/-- The strengthened invariant propagates along any event sequence shorter
than `2^64`. -/
theorem runPool_inv : ∀ (es : List PoolEvent) (w : Worker) (n : Nat),
    InvPool w n → n + es.length < U64 →
    InvPool (runPool w es) (n + es.length) := by
  intro es
  induction es with
  | nil => intro w n h _; simpa [runPool] using h
  | cons e es ih =>
      intro w n h hlt
      have hstep : InvPool (stepPool w e) (n + 1) :=
        stepPool_inv w e n h (by simp [List.length_cons] at hlt; omega)
      have : InvPool (runPool (stepPool w e) es) ((n + 1) + es.length) :=
        ih (stepPool w e) (n + 1) hstep
          (by simp [List.length_cons] at hlt; omega)
      have hru : runPool w (e :: es) = runPool (stepPool w e) es := rfl
      rw [hru]
      have hlen : (n + 1) + es.length = n + (e :: es).length := by
        simp [List.length_cons]; omega
      rwa [hlen] at this

/-- C5: along every interleaving of `Start`/`Shutdown`/`SubmitTask` calls,
task dequeues and task completions (with `Reset` never called) shorter
than `2^64` events, the statistics of a freshly constructed pool satisfy
processed + failed ≤ submitted. -/
theorem counters_invariant (bufSize : Nat) (es : List PoolEvent)
    (hlen : es.length < U64) : countersOk (runPool (initWorker bufSize) es) := by
  have h0 : InvPool (initWorker bufSize) 0 := by
    constructor <;> simp [initWorker, NewWorkerStats]
  have := runPool_inv es (initWorker bufSize) 0 h0 (by omega)
  exact le_trans (by omega) this.1

/-- Witness for C5 on a concrete five-event trace: start, two submissions,
one dequeue, one successful completion. -/
theorem counters_invariant_witness :
    ([PoolEvent.start, PoolEvent.submit false false, PoolEvent.submit false false,
      PoolEvent.dequeue,
      PoolEvent.finish failCompletedCollab (sampleTask TaskStatusPending) 3 9
        false true false] : List PoolEvent).length < U64 ∧
    countersOk (runPool (initWorker 2)
      [PoolEvent.start, PoolEvent.submit false false, PoolEvent.submit false false,
       PoolEvent.dequeue,
       PoolEvent.finish failCompletedCollab (sampleTask TaskStatusPending) 3 9
         false true false]) :=
  ⟨by decide,
    counters_invariant 2
      [PoolEvent.start, PoolEvent.submit false false, PoolEvent.submit false false,
       PoolEvent.dequeue,
       PoolEvent.finish failCompletedCollab (sampleTask TaskStatusPending) 3 9
         false true false] (by decide)⟩

end Taskqueue
